import Mathlib

/-!
Verification development for the resource-directive container of the
signac-flow fork under study (`flow/directives.py` and its test surface
`tests/test_directives.py`).  The repository snapshot contains only the
tests; the directive module itself is reconstructed here from the
natural-language specification, with every behaviour that the tests pin
down taken from the tests (the tests are part of the repository and are
authoritative where they disagree with the prose).

Python values stored in a directive set are modelled by the tagged
variant `DirVal` (the specification's design note suggests exactly this
`Literal`/`Deferred` representation); Python floats are modelled by
exact rationals, which is faithful for every value occurring in the
specification and the tests.  Fallible Python operations (validation,
item access, deletion, update) return `Except Err`.
-/

/-- Kinds of errors raised by the directives module (`TypeError`,
`ValueError`, `KeyError`, `RuntimeError` in the source system). -/
inductive Err where
  | typeError
  | valueError
  | keyError
  | runtimeError
deriving DecidableEq, Repr

/-- The execution context handed to directive-valued functions: the test
suite only reads the job's state-point entry `i`, so the context is
modelled as that single natural number. -/
structure Job where
  sp_i : Nat
deriving DecidableEq, Repr

/-- A dynamically-typed directive value: integers, floats (as exact
rationals), strings, booleans, Python `None`, or a deferred
context-dependent callable of one argument. -/
inductive DirVal where
  | int : Int → DirVal
  | rat : ℚ → DirVal
  | str : String → DirVal
  | bool : Bool → DirVal
  | pyNone : DirVal
  | func : (Job → DirVal) → DirVal

/-- Modelled from the spec: a `_DirectivesItem` of the missing
`flow/directives.py` — an immutable descriptor for one named resource
field, carrying its default, validator and the serial/parallel merge and
finalize functions. -/
structure DirectivesItem where
  name : String
  default : DirVal
  validation : DirVal → Except Err DirVal
  serial : DirVal → DirVal → DirVal
  parallel : DirVal → DirVal → DirVal
  finalize : DirVal → List (String × DirVal) → DirVal

/-- Modelled from the spec: validator for non-negative integer count
fields (rank count, GPU count, threads-per-process, memory); rejects
non-integers (including `None`) with a type error and negative values
with a value error; deferred callables pass through unvalidated until
resolution. -/
def natValidation (v : DirVal) : Except Err DirVal :=
  match v with
  | .int n => if 0 ≤ n then .ok (.int n) else .error .valueError
  | .func f => .ok (.func f)
  | _ => .error .typeError

/-- Modelled from the spec: validator for the process-count field; its
domain is strictly positive integers — the repository's test
`test_set_defined_directive_invalid` pins that the value `0` raises a
`ValueError`. -/
def posIntValidation (v : DirVal) : Except Err DirVal :=
  match v with
  | .int n => if 1 ≤ n then .ok (.int n) else .error .valueError
  | .func f => .ok (.func f)
  | _ => .error .typeError

/-- The platform-dependent default executable path (`sys.executable` in
the source system); an opaque constant in this model. -/
def sys_executable : String := "/usr/bin/python3"

/-- Modelled from the spec: validator for the executable-path field;
accepts any string, and accepts `None` by substituting the computed
platform default instead of rejecting it. -/
def executableValidation (v : DirVal) : Except Err DirVal :=
  match v with
  | .str s => .ok (.str s)
  | .pyNone => .ok (.str sys_executable)
  | .func f => .ok (.func f)
  | _ => .error .typeError

/-- Modelled from the spec: validator for the wall-clock limit field;
accepts non-negative floats, rejects `None` and other non-numeric values
with a type error. -/
def walltimeValidation (v : DirVal) : Except Err DirVal :=
  match v with
  | .rat q => if 0 ≤ q then .ok (.rat q) else .error .valueError
  | .func f => .ok (.func f)
  | _ => .error .typeError

/-- Modelled from the spec: validator for the processor-fraction field;
accepts floats inside `[0, 1]`, rejects values outside that range with a
value error and non-floats (including `None`) with a type error. -/
def fractionValidation (v : DirVal) : Except Err DirVal :=
  match v with
  | .rat q => if 0 ≤ q ∧ q ≤ 1 then .ok (.rat q) else .error .valueError
  | .func f => .ok (.func f)
  | _ => .error .typeError

/-- Merge by maximum (on two integer or two rational operands; any other
shape keeps the first operand, matching merges being defined only over
already-valid values). -/
def dirMax : DirVal → DirVal → DirVal
  | .int a, .int b => .int (max a b)
  | .rat a, .rat b => .rat (max a b)
  | a, _ => a

/-- Merge by sum (on two integer or two rational operands; any other
shape keeps the first operand). -/
def dirSum : DirVal → DirVal → DirVal
  | .int a, .int b => .int (a + b)
  | .rat a, .rat b => .rat (a + b)
  | a, _ => a

/-- Merge that keeps the first operand unchanged (exported as
`no_aggregation` by the source module and used by the executable-path
and processor-fraction fields). -/
def no_aggregation (a _b : DirVal) : DirVal := a

/-- Finalize function of a non-derived field: returns the value
unchanged. -/
def noFinalize (v : DirVal) (_siblings : List (String × DirVal)) : DirVal := v

/-- Look up a key in an association list of directive values. -/
def lookupVal : List (String × DirVal) → String → Option DirVal
  | [], _ => none
  | (k', v) :: rest, k => if k' == k then some v else lookupVal rest k

/-- Finalize function of the derived process-count field, reconstructed
from the repository's tests (`test_finalize`,
`test_update_directive_serial/parallel`): when both the rank count and
the threads-per-process siblings hold integer values, the process count
becomes the maximum of its current value and their product; otherwise
(a sibling missing or not an integer, e.g. an unresolved callable) the
current value is kept. -/
def finalize_np (v : DirVal) (directives : List (String × DirVal)) : DirVal :=
  match v, lookupVal directives "nranks", lookupVal directives "omp_num_threads" with
  | .int n, some (.int r), some (.int t) => .int (max n (r * t))
  | _, _, _ => v

/-- Modelled from the spec: the standard process-count spec `NP`
(default 1, serial max, parallel sum, derived via `finalize_np`). -/
def NP : DirectivesItem :=
  ⟨"np", .int 1, posIntValidation, dirMax, dirSum, finalize_np⟩

/-- Modelled from the spec: the standard rank-count spec `NRANKS`
(default 0, serial max, parallel sum). -/
def NRANKS : DirectivesItem :=
  ⟨"nranks", .int 0, natValidation, dirMax, dirSum, noFinalize⟩

/-- Modelled from the spec: the standard GPU-count spec `NGPU`
(default 0, serial max, parallel sum). -/
def NGPU : DirectivesItem :=
  ⟨"ngpu", .int 0, natValidation, dirMax, dirSum, noFinalize⟩

/-- Modelled from the spec: the standard threads-per-process spec
`OMP_NUM_THREADS` (default 0, serial max, parallel sum). -/
def OMP_NUM_THREADS : DirectivesItem :=
  ⟨"omp_num_threads", .int 0, natValidation, dirMax, dirSum, noFinalize⟩

/-- Modelled from the spec: the standard executable-path spec
`EXECUTABLE` (default `sys.executable`; both merges keep the first
operand). -/
def EXECUTABLE : DirectivesItem :=
  ⟨"executable", .str sys_executable, executableValidation,
    no_aggregation, no_aggregation, noFinalize⟩

/-- Modelled from the spec: the standard wall-clock limit spec
`WALLTIME` (default 12.0, serial sum, parallel max). -/
def WALLTIME : DirectivesItem :=
  ⟨"walltime", .rat 12, walltimeValidation, dirSum, dirMax, noFinalize⟩

/-- Modelled from the spec: the standard memory spec `MEMORY`
(default 4, serial max, parallel sum). -/
def MEMORY : DirectivesItem :=
  ⟨"memory", .int 4, natValidation, dirMax, dirSum, noFinalize⟩

/-- Modelled from the spec: the standard processor-fraction spec
`PROCESS_FRACTION` (default 1.0; both merges keep the first operand). -/
def PROCESS_FRACTION : DirectivesItem :=
  ⟨"processor_fraction", .rat 1, fractionValidation,
    no_aggregation, no_aggregation, noFinalize⟩

/-- The registration list used throughout the repository's tests. -/
def availableDirectivesList : List DirectivesItem :=
  [NP, NRANKS, NGPU, OMP_NUM_THREADS, EXECUTABLE, WALLTIME, MEMORY,
   PROCESS_FRACTION]

/-- Store a value under a key in an association list, replacing an
existing binding in place or appending a new one at the end (insertion
order is preserved). -/
def setVal : List (String × DirVal) → String → DirVal → List (String × DirVal)
  | [], k, v => [(k, v)]
  | (k', v') :: rest, k, v =>
    if k' == k then (k, v) :: rest else (k', v') :: setVal rest k v

/-- Remove a key's binding from an association list (Python dictionaries
hold each key at most once, so this removes every occurrence). -/
def removeVal : List (String × DirVal) → String → List (String × DirVal)
  | [], _ => []
  | (k', v') :: rest, k =>
    if k' == k then removeVal rest k else (k', v') :: removeVal rest k

/-- Find the registered spec of a given name. -/
def findSpecIn : List DirectivesItem → String → Option DirectivesItem
  | [], _ => none
  | s :: rest, k => if s.name == k then some s else findSpecIn rest k

/-- Modelled from the spec: the `Directives` container of the missing
`flow/directives.py` — registered specs (in registration order), stored
values for spec-backed fields, and free-form entries stored verbatim. -/
structure Directives where
  specs : List DirectivesItem
  defined : List (String × DirVal)
  userValues : List (String × DirVal)

/-- A fresh `Directives` over a list of specs, with nothing stored. -/
def mkDirectives (specs : List DirectivesItem) : Directives :=
  ⟨specs, [], []⟩

/-- The spec registered under a name, if any. -/
def Directives.findSpec (d : Directives) (k : String) : Option DirectivesItem :=
  findSpecIn d.specs k

/-- Modelled from the spec: item access — a spec-backed field reads its
stored value, defaulting to the spec's default when unset; a free-form
key reads its stored value and raises a `KeyError` when absent. -/
def Directives.get (d : Directives) (k : String) : Except Err DirVal :=
  match d.findSpec k with
  | some s => .ok ((lookupVal d.defined k).getD s.default)
  | none =>
    match lookupVal d.userValues k with
    | some v => .ok v
    | none => .error .keyError

/-- Modelled from the spec: item assignment — a spec-backed field stores
the validated value (on validation failure the error propagates and the
container is unchanged); a key with no registered spec is stored
verbatim as a free-form entry. -/
def Directives.set (d : Directives) (k : String) (v : DirVal) : Except Err Directives :=
  match d.findSpec k with
  | some s =>
    match s.validation v with
    | .ok v' => .ok { d with defined := setVal d.defined k v' }
    | .error e => .error e
  | none => .ok { d with userValues := setVal d.userValues k v }

/-- Modelled from the spec: deletion — removing a spec-backed field
makes subsequent reads revert to the default; removing a free-form key
deletes it, and deleting a free-form key that was never written raises a
`KeyError`. -/
def Directives.delete (d : Directives) (k : String) : Except Err Directives :=
  match d.findSpec k with
  | some _ => .ok { d with defined := removeVal d.defined k }
  | none =>
    if (lookupVal d.userValues k).isSome then
      .ok { d with userValues := removeVal d.userValues k }
    else .error .keyError

/-- Assign a list of key/value pairs in order (the overwrite pass of a
non-aggregate `update`); the first validation failure propagates. -/
def setAll : Directives → List (String × DirVal) → Except Err Directives
  | d, [] => .ok d
  | d, (k, v) :: rest =>
    match d.set k v with
    | .ok d' => setAll d' rest
    | .error e => .error e

/-- Resolve a deferred callable against a context when one is supplied,
validating the callable's return value against the field's spec; any
other value (or a callable with no context) passes through unchanged. -/
def resolveWith (s : DirectivesItem) (job : Option Job) (v : DirVal) : Except Err DirVal :=
  match v, job with
  | .func f, some j => s.validation (f j)
  | _, _ => .ok v

/-- Modelled from the spec: merge two values of one field — each
operand that is a deferred callable is first resolved against the
context when one is supplied; if a callable remains unresolved the
merge is deferred and the first operand is carried through unmerged;
otherwise the spec's parallel (when `par`) or serial merge combines the
two resolved values. -/
def mergeOne (s : DirectivesItem) (par : Bool) (job : Option Job)
    (a b : DirVal) : Except Err DirVal :=
  match resolveWith s job a with
  | .error e => .error e
  | .ok a' =>
    match resolveWith s job b with
    | .error e => .error e
    | .ok b' =>
      match a', b' with
      | .func _, _ => .ok a
      | _, .func _ => .ok a
      | _, _ => .ok ((if par then s.parallel else s.serial) a' b')

/-- The full name → value view of a container: every spec-backed field
(at its default when unset) in registration order, then the free-form
entries — the sibling dictionary a `finalize` function observes. -/
def specView (defined : List (String × DirVal)) : List DirectivesItem → List (String × DirVal)
  | [] => []
  | s :: rest => (s.name, (lookupVal defined s.name).getD s.default) :: specView defined rest

/-- All current field values of a container, as an association list. -/
def Directives.asList (d : Directives) : List (String × DirVal) :=
  specView d.defined d.specs ++ d.userValues

/-- Run the finalize pass over the given specs in order, each finalize
observing the container state left by the previous ones. -/
def finalizeSpecs : Directives → List DirectivesItem → Directives
  | d, [] => d
  | d, s :: rest =>
    let cur := (lookupVal d.defined s.name).getD s.default
    finalizeSpecs { d with defined := setVal d.defined s.name (s.finalize cur d.asList) } rest

/-- Modelled from the spec: the finalize pass — every spec-backed field
is recomputed by its spec's `finalize` in spec-registration order, each
observing the already-merged values of its siblings. -/
def Directives.finalizePass (d : Directives) : Directives :=
  finalizeSpecs d d.specs

/-- Merge every spec-backed field of `other` into `d` (absent keys read
as the spec default on either side), storing the merged values. -/
def aggregateSpecs (other : Directives) (par : Bool) (job : Option Job) :
    Directives → List DirectivesItem → Except Err Directives
  | d, [] => .ok d
  | d, s :: rest =>
    let a := (lookupVal d.defined s.name).getD s.default
    let b := (lookupVal other.defined s.name).getD s.default
    match mergeOne s par job a b with
    | .error e => .error e
    | .ok m => aggregateSpecs other par job
        { d with defined := setVal d.defined s.name m } rest

/-- Modelled from the spec: `update` with another `Directives` operand.
With `aggregate = false` every key stored in `other` overwrites `self`'s
value (validated when a spec exists).  With `aggregate = true` every
spec-backed field is merged with `merge_parallel` when `par` else
`merge_serial` (absent keys using the spec default), free-form keys of
`other` are overwritten, and the finalize pass then runs over all
spec-backed fields in registration order.  The repository's test
`test_update_directive_without_aggregate` additionally pins that the
finalize pass also runs after a plain overwrite (its expected process
count is `nranks × omp_num_threads = 100`, not the overwritten `4`), so
both branches end with `finalizePass` — a deliberate deviation from the
specification's pure-overwrite wording, forced by the tests. -/
def Directives.update (d other : Directives) (aggregate par : Bool)
    (job : Option Job) : Except Err Directives :=
  if aggregate then
    match aggregateSpecs other par job d d.specs with
    | .error e => .error e
    | .ok merged =>
      match setAll merged other.userValues with
      | .ok d' => .ok d'.finalizePass
      | .error e => .error e
  else
    match setAll d (other.defined ++ other.userValues) with
    | .ok d' => .ok d'.finalizePass
    | .error e => .error e

/-- Modelled from the spec: `update` with a plain name → value mapping
operand and `aggregate = false`: overwrite every key of the mapping in
order, then run the finalize pass (see `Directives.update` for why the
finalize pass is included). -/
def Directives.updateMapping (d : Directives) (other : List (String × DirVal)) :
    Except Err Directives :=
  match setAll d other with
  | .ok d' => .ok d'.finalizePass
  | .error e => .error e

/-- Resolve deferred callables of spec-backed fields against a context,
in spec-registration order; raises a `RuntimeError` when a callable is
unresolved and no context is supplied.  Free-form entries are never
resolved. -/
def evaluateSpecs (job : Option Job) : Directives → List DirectivesItem → Except Err Directives
  | d, [] => .ok d
  | d, s :: rest =>
    match lookupVal d.defined s.name with
    | some (.func f) =>
      match job with
      | some j =>
        match s.validation (f j) with
        | .ok v => evaluateSpecs job { d with defined := setVal d.defined s.name v } rest
        | .error e => .error e
      | none => .error .runtimeError
    | _ => evaluateSpecs job d rest

/-- Modelled from the spec: `evaluate(context)` — replace every stored
deferred callable of a spec-backed field by its validated value on the
context; evaluating with no context raises while an unresolved callable
remains, and is a no-op on an already-resolved container. -/
def Directives.evaluate (d : Directives) (job : Option Job) : Except Err Directives :=
  evaluateSpecs job d d.specs

/-- Sequence item access after a fallible construction. -/
def bindGet (r : Except Err Directives) (k : String) : Except Err DirVal :=
  match r with
  | .ok d => d.get k
  | .error e => .error e

/-- Sequence `update` after two fallible constructions. -/
def bindUpdate (r s : Except Err Directives) (aggregate par : Bool)
    (job : Option Job) : Except Err Directives :=
  match r, s with
  | .ok d, .ok o => d.update o aggregate par job
  | .error e, _ => .error e
  | .ok _, .error e => .error e

/-- The process-count spec of the aggregation scenario in the
specification (default 1, serial max, parallel sum, no derivation). -/
def processCountSpec : DirectivesItem :=
  ⟨"processCount", .int 1, posIntValidation, dirMax, dirSum, noFinalize⟩

/-- The wall-time spec of the aggregation scenario in the specification
(default 12.0, serial sum, parallel max). -/
def wallTimeSpec : DirectivesItem :=
  ⟨"wallTime", .rat 12, walltimeValidation, dirSum, dirMax, noFinalize⟩

/-- Operand A of the aggregation scenario: processCount 4, wallTime 64. -/
def c2A : Except Err Directives :=
  setAll (mkDirectives [processCountSpec, wallTimeSpec])
    [("processCount", .int 4), ("wallTime", .rat 64)]

/-- Operand B of the aggregation scenario: processCount 1, wallTime 20. -/
def c2B : Except Err Directives :=
  setAll (mkDirectives [processCountSpec, wallTimeSpec])
    [("processCount", .int 1), ("wallTime", .rat 20)]


/-- Sequence a non-aggregate mapping `update` after a fallible
construction. -/
def bindUpdateMapping (r : Except Err Directives) (other : List (String × DirVal)) :
    Except Err Directives :=
  match r with
  | .ok d => d.updateMapping other
  | .error e => .error e

/-- The populated value set used by the repository's update tests (the
`values` fixture always returns this dictionary): np 4, nranks 5,
ngpu 10, omp_num_threads 20, executable "Non Default Path",
walltime 64.0, memory 32, processor_fraction 0.5. -/
def values0 : List (String × DirVal) :=
  [("np", .int 4), ("nranks", .int 5), ("ngpu", .int 10),
   ("omp_num_threads", .int 20), ("executable", .str "Non Default Path"),
   ("walltime", .rat 64), ("memory", .int 32),
   ("processor_fraction", .rat (1/2))]

/-- The context-dependent processor-fraction function of the job tests:
`lambda job: job.sp.i / 10`. -/
def procFracFn : Job → DirVal := fun job => .rat ((job.sp_i : ℚ) / 10)

/-- `values0` with the processor fraction replaced by the deferred
callable `procFracFn`, as in the job-carrying update tests. -/
def values0Fn : List (String × DirVal) :=
  [("np", .int 4), ("nranks", .int 5), ("ngpu", .int 10),
   ("omp_num_threads", .int 20), ("executable", .str "Non Default Path"),
   ("walltime", .rat 64), ("memory", .int 32),
   ("processor_fraction", .func procFracFn)]

/-- A directive set over the eight standard specs populated with
`values0`. -/
def stdPopulated : Except Err Directives :=
  setAll (mkDirectives availableDirectivesList) values0

/-- A directive set over the eight standard specs populated with
`values0Fn` (processor fraction deferred). -/
def stdPopulatedFn : Except Err Directives :=
  setAll (mkDirectives availableDirectivesList) values0Fn

/-- Result of the non-aggregate update test: `stdPopulated` updated with
the mapping `values0` (the fixture hands the update the same values it
populated with). -/
def c4Result : Except Err Directives := bindUpdateMapping stdPopulated values0

/-- Python's `round(q, 1)`: the nearest multiple of one tenth (lower
multiple at a tie; no value in the claims sits at a tie). -/
def roundTo1 (q : ℚ) : ℚ := (⌊10 * q + 1/2⌋ : ℚ) / 10

/-- C1: for process count, rank count, GPU count, threads-per-process
and memory, the serial merge is the maximum and the parallel merge the
sum; for the wall-clock limit the serial merge is the sum and the
parallel merge the maximum; the executable-path and processor-fraction
merges keep the first operand — including the spec's worked examples
serial(4,2)/parallel(4,2). -/
theorem std_fields_merge_table :
    (∀ a b : Int,
      NP.serial (.int a) (.int b) = .int (max a b) ∧
      NP.parallel (.int a) (.int b) = .int (a + b) ∧
      NRANKS.serial (.int a) (.int b) = .int (max a b) ∧
      NRANKS.parallel (.int a) (.int b) = .int (a + b) ∧
      NGPU.serial (.int a) (.int b) = .int (max a b) ∧
      NGPU.parallel (.int a) (.int b) = .int (a + b) ∧
      OMP_NUM_THREADS.serial (.int a) (.int b) = .int (max a b) ∧
      OMP_NUM_THREADS.parallel (.int a) (.int b) = .int (a + b) ∧
      MEMORY.serial (.int a) (.int b) = .int (max a b) ∧
      MEMORY.parallel (.int a) (.int b) = .int (a + b)) ∧
    (∀ a b : ℚ,
      WALLTIME.serial (.rat a) (.rat b) = .rat (a + b) ∧
      WALLTIME.parallel (.rat a) (.rat b) = .rat (max a b)) ∧
    (∀ a b : DirVal,
      EXECUTABLE.serial a b = a ∧ EXECUTABLE.parallel a b = a ∧
      PROCESS_FRACTION.serial a b = a ∧ PROCESS_FRACTION.parallel a b = a) ∧
    NP.serial (.int 4) (.int 2) = .int 4 ∧
    NP.parallel (.int 4) (.int 2) = .int 6 ∧
    WALLTIME.serial (.rat 4) (.rat 2) = .rat 6 ∧
    WALLTIME.parallel (.rat 4) (.rat 2) = .rat 4 := by
  refine ⟨fun a b => ⟨rfl, rfl, rfl, rfl, rfl, rfl, rfl, rfl, rfl, rfl⟩,
    fun a b => ⟨rfl, rfl⟩, fun a b => ⟨rfl, rfl, rfl, rfl⟩, ?_, ?_, ?_, ?_⟩ <;>
    simp +decide [NP, WALLTIME, dirMax, dirSum] <;> norm_num

/-- C3 counterexample: the repository's `test_finalize` pins that the
process-count finalize does replace an explicit positive value by the
derived product — `NP.finalize(2, {nranks: 2, omp_num_threads: 4})`
returns 8, not the unchanged 2 the claim requires. -/
theorem np_finalize_replaces_positive_value :
    NP.finalize (.int 2) [("nranks", .int 2), ("omp_num_threads", .int 4)] =
      .int 8 ∧
    DirVal.int 8 ≠ DirVal.int 2 := by
  constructor
  · simp +decide [NP, finalize_np, lookupVal]
  · intro h
    simp at h

/-- C3 amended: when both siblings hold integer values, the
process-count finalize returns the maximum of the current value and
rank-count × threads-per-process — an explicit positive value is kept
only when it is at least the derived product, never lowered — and the
value passes through unchanged when a sibling is a deferred callable. -/
theorem np_finalize_max_of_value_and_product :
    (∀ n r t : Int,
      NP.finalize (.int n)
        [("nranks", .int r), ("omp_num_threads", .int t)] =
        .int (max n (r * t))) ∧
    (∀ (n : Int) (f : Job → DirVal) (t : DirVal),
      NP.finalize (.int n) [("nranks", .func f), ("omp_num_threads", t)] =
        .int n) := by
  constructor
  · intro n r t
    rfl
  · intro n f t
    rfl

/-- C5: every standard field's validator accepts its default unchanged,
and every standard field's validator rejects `None` with a type error —
except the executable-path field, which accepts `None` (substituting the
platform default). -/
theorem validate_defaults_and_none :
    NP.validation NP.default = .ok NP.default ∧
    NRANKS.validation NRANKS.default = .ok NRANKS.default ∧
    NGPU.validation NGPU.default = .ok NGPU.default ∧
    OMP_NUM_THREADS.validation OMP_NUM_THREADS.default =
      .ok OMP_NUM_THREADS.default ∧
    EXECUTABLE.validation EXECUTABLE.default = .ok EXECUTABLE.default ∧
    WALLTIME.validation WALLTIME.default = .ok WALLTIME.default ∧
    MEMORY.validation MEMORY.default = .ok MEMORY.default ∧
    PROCESS_FRACTION.validation PROCESS_FRACTION.default =
      .ok PROCESS_FRACTION.default ∧
    NP.validation .pyNone = .error .typeError ∧
    NRANKS.validation .pyNone = .error .typeError ∧
    NGPU.validation .pyNone = .error .typeError ∧
    OMP_NUM_THREADS.validation .pyNone = .error .typeError ∧
    WALLTIME.validation .pyNone = .error .typeError ∧
    MEMORY.validation .pyNone = .error .typeError ∧
    PROCESS_FRACTION.validation .pyNone = .error .typeError ∧
    EXECUTABLE.validation .pyNone = .ok (.str sys_executable) := by
  refine ⟨?_, ?_, ?_, ?_, ?_, ?_, ?_, ?_, rfl, rfl, rfl, rfl, rfl, rfl, rfl, rfl⟩ <;>
    simp +decide [NP, NRANKS, NGPU, OMP_NUM_THREADS, EXECUTABLE, WALLTIME,
      MEMORY, PROCESS_FRACTION, posIntValidation, natValidation,
      executableValidation, walltimeValidation, fractionValidation]

/-- C9: the process-count validator's domain is strictly positive —
the value 0 is rejected with a `ValueError` — and assigning 0 to the
`np` field of any container registering the standard `NP` spec raises
that error (so no stored value changes). -/
theorem np_rejects_zero (d : Directives) (h : d.findSpec "np" = some NP) :
    NP.validation (.int 0) = .error .valueError ∧
    d.set "np" (.int 0) = .error .valueError := by
  constructor
  · rfl
  · simp [Directives.set, h, NP, posIntValidation]

/-- Witness for C9 at the test's container over the eight standard
specs. -/
theorem np_rejects_zero_witness :
    (mkDirectives availableDirectivesList).set "np" (.int 0) =
      .error .valueError :=
  (np_rejects_zero (mkDirectives availableDirectivesList) rfl).2

/-- C2: the specification's aggregation scenario — over specs
{processCount: default 1, serial max, parallel sum} and {wallTime:
default 12.0, serial sum, parallel max}, aggregating A = {processCount
4, wallTime 64} with B = {processCount 1, wallTime 20} serially yields
processCount 4 and wallTime 84, and in parallel yields processCount 5
and wallTime 64 (each spec-backed field merged with the mode's merge
function, then the finalize pass runs in registration order). -/
theorem aggregate_update_scenario :
    bindGet (bindUpdate c2A c2B true false none) "processCount" =
      .ok (.int 4) ∧
    bindGet (bindUpdate c2A c2B true false none) "wallTime" =
      .ok (.rat 84) ∧
    bindGet (bindUpdate c2A c2B true true none) "processCount" =
      .ok (.int 5) ∧
    bindGet (bindUpdate c2A c2B true true none) "wallTime" =
      .ok (.rat 64) := by
  refine ⟨?_, ?_, ?_, ?_⟩ <;>
    simp +decide [bindGet, bindUpdate, c2A, c2B, setAll, Directives.set,
      Directives.findSpec, findSpecIn, processCountSpec, wallTimeSpec,
      posIntValidation, walltimeValidation, setVal, mkDirectives,
      Directives.update, aggregateSpecs, lookupVal, mergeOne, resolveWith,
      dirMax, dirSum, Directives.finalizePass, finalizeSpecs,
      Directives.asList, specView, noFinalize, Directives.get] <;>
    norm_num


/-- The container state of the update tests after populating the eight
standard specs with `values0`. -/
def stdState : Directives := ⟨availableDirectivesList, values0, []⟩

theorem stdPopulated_eq : stdPopulated = .ok stdState := by
  simp +decide [stdPopulated, setAll, Directives.set, Directives.findSpec,
    findSpecIn, availableDirectivesList, values0, NP, NRANKS, NGPU,
    OMP_NUM_THREADS, EXECUTABLE, WALLTIME, MEMORY, PROCESS_FRACTION,
    posIntValidation, natValidation, executableValidation,
    walltimeValidation, fractionValidation, setVal, mkDirectives, stdState]
  norm_num

/-- The state after the non-aggregate update test: `values0` with the
process count recomputed to 100 by the finalize pass. -/
def c4State : Directives :=
  ⟨availableDirectivesList,
   [("np", .int 100), ("nranks", .int 5), ("ngpu", .int 10),
    ("omp_num_threads", .int 20), ("executable", .str "Non Default Path"),
    ("walltime", .rat 64), ("memory", .int 32),
    ("processor_fraction", .rat (1/2))], []⟩

theorem setAll_stdState_values0 : setAll stdState values0 = .ok stdState := by
  simp +decide [setAll, Directives.set, Directives.findSpec, findSpecIn,
    availableDirectivesList, values0, NP, NRANKS, NGPU, OMP_NUM_THREADS,
    EXECUTABLE, WALLTIME, MEMORY, PROCESS_FRACTION, posIntValidation,
    natValidation, executableValidation, walltimeValidation,
    fractionValidation, setVal, stdState]
  norm_num

theorem stdState_finalizePass : stdState.finalizePass = c4State := by
  simp +decide [Directives.finalizePass, finalizeSpecs, stdState, c4State,
    availableDirectivesList, values0, NP, NRANKS, NGPU, OMP_NUM_THREADS,
    EXECUTABLE, WALLTIME, MEMORY, PROCESS_FRACTION, lookupVal, setVal,
    Directives.asList, specView, noFinalize, finalize_np]

theorem c4Result_eq : c4Result = .ok c4State := by
  rw [c4Result, stdPopulated_eq]
  show stdState.updateMapping values0 = .ok c4State
  simp [Directives.updateMapping, setAll_stdState_values0, stdState_finalizePass]

/-- C4 counterexample: the non-aggregate update of the repository's test
`test_update_directive_without_aggregate` is not a pure overwrite — the
mapping handed to `update` holds np = 4, yet afterwards the stored
process count reads 100 (recomputed by the finalize pass from
nranks × omp_num_threads = 5 × 20), not the overwritten 4. -/
theorem nonaggregate_update_not_pure_overwrite :
    lookupVal values0 "np" = some (.int 4) ∧
    bindGet c4Result "np" = .ok (.int 100) ∧
    (Except.ok (DirVal.int 100) : Except Err DirVal) ≠ .ok (.int 4) := by
  refine ⟨by simp +decide [values0, lookupVal], ?_, by simp⟩
  rw [c4Result_eq]
  simp +decide [bindGet, c4State, Directives.get, Directives.findSpec,
    findSpecIn, availableDirectivesList, NP, lookupVal]

/-- C4 amended: a non-aggregate update overwrites every key of the
mapping with its validated value and then runs the finalize pass, so
every non-derived standard field ends equal to the mapping's value while
the derived process count is recomputed as max(overwritten np,
nranks × omp_num_threads) — on the repository's test data np becomes 100
and every other field keeps the mapping's value. -/
theorem nonaggregate_update_overwrite_then_finalize :
    bindGet c4Result "np" = .ok (.int 100) ∧
    bindGet c4Result "nranks" = .ok (.int 5) ∧
    bindGet c4Result "ngpu" = .ok (.int 10) ∧
    bindGet c4Result "omp_num_threads" = .ok (.int 20) ∧
    bindGet c4Result "executable" = .ok (.str "Non Default Path") ∧
    bindGet c4Result "walltime" = .ok (.rat 64) ∧
    bindGet c4Result "memory" = .ok (.int 32) ∧
    bindGet c4Result "processor_fraction" = .ok (.rat (1/2)) := by
  rw [c4Result_eq]
  refine ⟨?_, ?_, ?_, ?_, ?_, ?_, ?_, ?_⟩ <;>
    simp +decide [bindGet, c4State, Directives.get, Directives.findSpec,
      findSpecIn, availableDirectivesList, NP, NRANKS, NGPU,
      OMP_NUM_THREADS, EXECUTABLE, WALLTIME, MEMORY, PROCESS_FRACTION,
      lookupVal]

theorem lookup_removeVal_self (xs : List (String × DirVal)) (k : String) :
    lookupVal (removeVal xs k) k = none := by
  induction xs with
  | nil => rfl
  | cons p rest ih =>
    obtain ⟨a, b⟩ := p
    by_cases h : a = k
    · simpa [removeVal, h] using ih
    · simp [removeVal, lookupVal, h, ih]

theorem lookup_removeVal_ne (xs : List (String × DirVal)) (k k' : String)
    (hne : k' ≠ k) : lookupVal (removeVal xs k) k' = lookupVal xs k' := by
  induction xs with
  | nil => rfl
  | cons p rest ih =>
    obtain ⟨a, b⟩ := p
    by_cases h : a = k
    · subst h
      simp [removeVal, lookupVal, Ne.symm hne, ih]
    · by_cases h2 : a = k'
      · subst h2
        simp [removeVal, lookupVal, hne, h, ih]
      · simp [removeVal, lookupVal, h, h2, ih]

theorem delete_frame (d d' : Directives) (k k' : String)
    (h : d.delete k = .ok d') (hne : k' ≠ k) : d'.get k' = d.get k' := by
  unfold Directives.delete Directives.findSpec at h
  cases hs : findSpecIn d.specs k with
  | some s =>
    rw [hs] at h
    cases h
    simp only [Directives.get, Directives.findSpec,
      lookup_removeVal_ne d.defined k k' hne]
  | none =>
    rw [hs] at h
    by_cases hu : (lookupVal d.userValues k).isSome
    · rw [if_pos hu] at h
      cases h
      simp only [Directives.get, Directives.findSpec,
        lookup_removeVal_ne d.userValues k k' hne]
    · rw [if_neg hu] at h
      cases h

theorem delete_revert_default (d d' : Directives) (k : String)
    (s : DirectivesItem) (hs : d.findSpec k = some s)
    (h : d.delete k = .ok d') : d'.get k = .ok s.default := by
  unfold Directives.delete Directives.findSpec at h
  unfold Directives.findSpec at hs
  rw [hs] at h
  cases h
  simp only [Directives.get, Directives.findSpec]
  rw [hs, lookup_removeVal_self]
  rfl

/-- Sequence item assignment after a fallible construction. -/
def bindSet (r : Except Err Directives) (k : String) (v : DirVal) :
    Except Err Directives :=
  match r with
  | .ok d => d.set k v
  | .error e => .error e

/-- Sequence deletion after a fallible construction. -/
def bindDelete (r : Except Err Directives) (k : String) :
    Except Err Directives :=
  match r with
  | .ok d => d.delete k
  | .error e => .error e

/-- The container of the deletion test: the eight standard specs with
the free-form key `test` set to `True` and `np` set to 100. -/
def c6Base : Except Err Directives :=
  bindSet ((mkDirectives availableDirectivesList).set "test" (.bool true))
    "np" (.int 100)

/-- C6: after deleting the spec-backed `np` field its read reverts to
the spec default (in general, to the owning spec's default), deleting
the stored free-form key `test` makes its read raise a `KeyError`,
deleting a free-form key that was never written raises a `KeyError`,
and deleting one key leaves every other key's read value unchanged. -/
theorem delete_semantics :
    bindGet c6Base "np" = .ok (.int 100) ∧
    bindGet (bindDelete c6Base "np") "np" = .ok (.int 1) ∧
    bindGet c6Base "test" = .ok (.bool true) ∧
    bindGet (bindDelete c6Base "test") "test" = .error .keyError ∧
    (mkDirectives availableDirectivesList).delete "test" =
      .error .keyError ∧
    (∀ (d d' : Directives) (k k' : String),
      d.delete k = .ok d' → k' ≠ k → d'.get k' = d.get k') ∧
    (∀ (d d' : Directives) (k : String) (s : DirectivesItem),
      d.findSpec k = some s → d.delete k = .ok d' →
      d'.get k = .ok s.default) := by
  refine ⟨?_, ?_, ?_, ?_, ?_, delete_frame, delete_revert_default⟩ <;>
    simp +decide [c6Base, bindSet, bindGet, bindDelete, mkDirectives,
      Directives.set, Directives.get, Directives.delete, Directives.findSpec,
      findSpecIn, availableDirectivesList, NP, NRANKS, NGPU,
      OMP_NUM_THREADS, EXECUTABLE, WALLTIME, MEMORY, PROCESS_FRACTION,
      posIntValidation, setVal, removeVal, lookupVal]

/-- Witness for C6 on a concrete container: deleting `np` from a
one-spec container holding np = 7 leaves the read of another key
unchanged and reverts the read of `np` to the default 1. -/
theorem delete_semantics_witness :
    (⟨[NP], [], []⟩ : Directives).get "memory" =
      (⟨[NP], [("np", DirVal.int 7)], []⟩ : Directives).get "memory" ∧
    (⟨[NP], [], []⟩ : Directives).get "np" = .ok NP.default :=
  ⟨delete_semantics.2.2.2.2.2.1 ⟨[NP], [("np", DirVal.int 7)], []⟩
      ⟨[NP], [], []⟩ "np" "memory" rfl (by decide),
   delete_semantics.2.2.2.2.2.2 ⟨[NP], [("np", DirVal.int 7)], []⟩
      ⟨[NP], [], []⟩ "np" NP rfl rfl⟩

/-- The container state of the job tests after populating the eight
standard specs with `values0Fn` (deferred processor fraction). -/
def stdStateFn : Directives := ⟨availableDirectivesList, values0Fn, []⟩

theorem stdPopulatedFn_eq : stdPopulatedFn = .ok stdStateFn := by
  simp +decide [stdPopulatedFn, setAll, Directives.set, Directives.findSpec,
    findSpecIn, availableDirectivesList, values0Fn, NP, NRANKS, NGPU,
    OMP_NUM_THREADS, EXECUTABLE, WALLTIME, MEMORY, PROCESS_FRACTION,
    posIntValidation, natValidation, executableValidation,
    walltimeValidation, fractionValidation, setVal, mkDirectives, stdStateFn]

/-- Result of the job-carrying parallel aggregate update test. -/
def c7Result (j : Job) : Except Err Directives :=
  bindUpdate stdPopulatedFn stdPopulated true true (some j)

/-- Result of the job-carrying serial aggregate update test. -/
def c10Result (j : Job) : Except Err Directives :=
  bindUpdate stdPopulatedFn stdPopulated true false (some j)

theorem roundTo1_tenths (n : ℕ) : roundTo1 ((1/10 : ℚ) * n) = (n : ℚ) / 10 := by
  unfold roundTo1
  have h10 : (10:ℚ) * ((1/10 : ℚ) * n) + 1/2 = (n : ℚ) + 1/2 := by ring
  rw [h10]
  have hfl : ⌊(n:ℚ) + 1/2⌋ = (n : ℤ) := by
    rw [Int.floor_eq_iff]
    constructor
    · push_cast
      linarith
    · push_cast
      linarith
  rw [hfl]
  push_cast
  ring

/-- C7: in the job-carrying parallel aggregate update, the deferred
processor-fraction callable is resolved by invoking it on the supplied
job and validating the result against the processor-fraction spec: for
every job with state point `i ≤ 4` the field afterwards reads the
callable's validated return value `i / 10`. -/
theorem job_update_resolves_callable (j : Job) (h : j.sp_i ≤ 4) :
    bindGet (c7Result j) "processor_fraction" =
      .ok (.rat ((j.sp_i : ℚ) / 10)) ∧
    PROCESS_FRACTION.validation (procFracFn j) =
      .ok (.rat ((j.sp_i : ℚ) / 10)) := by
  have h0 : (0:ℚ) ≤ (j.sp_i : ℚ) / 10 := by positivity
  have h1 : (j.sp_i : ℚ) / 10 ≤ 1 := by
    have h4 : (j.sp_i : ℚ) ≤ 4 := by exact_mod_cast h
    linarith
  have hval : fractionValidation (.rat ((j.sp_i : ℚ) / 10)) =
      .ok (.rat ((j.sp_i : ℚ) / 10)) := by
    simp [fractionValidation, h0, h1]
  refine ⟨?_, by simp [PROCESS_FRACTION, procFracFn, hval]⟩
  rw [c7Result, stdPopulatedFn_eq, stdPopulated_eq]
  show bindGet (stdStateFn.update stdState true true (some j))
    "processor_fraction" = _
  simp +decide [Directives.update, aggregateSpecs, mergeOne, resolveWith,
    stdStateFn, stdState, availableDirectivesList, values0, values0Fn,
    NP, NRANKS, NGPU, OMP_NUM_THREADS, EXECUTABLE, WALLTIME, MEMORY,
    PROCESS_FRACTION, procFracFn, hval, lookupVal, setVal, setAll,
    dirMax, dirSum, no_aggregation, Directives.finalizePass, finalizeSpecs,
    Directives.asList, specView, noFinalize, finalize_np, bindGet,
    Directives.get, Directives.findSpec, findSpecIn]

/-- Witness for C7 at the job with state point 3. -/
theorem job_update_resolves_callable_witness :
    bindGet (c7Result ⟨3⟩) "processor_fraction" =
      .ok (.rat (((⟨3⟩ : Job).sp_i : ℚ) / 10)) ∧
    PROCESS_FRACTION.validation (procFracFn ⟨3⟩) =
      .ok (.rat (((⟨3⟩ : Job).sp_i : ℚ) / 10)) :=
  job_update_resolves_callable ⟨3⟩ (by decide)

/-- C10: for every job with state point `i ≤ 4`, the processor fraction
resolved from the deferred callable during the job-carrying serial
aggregate update equals `round(0.1 * i, 1)` — the callable's return
value `i / 10`, on which rounding to one decimal place is the
identity. -/
theorem resolved_fraction_is_rounded (j : Job) (h : j.sp_i ≤ 4) :
    bindGet (c10Result j) "processor_fraction" =
      .ok (.rat (roundTo1 ((1/10 : ℚ) * j.sp_i))) := by
  have h0 : (0:ℚ) ≤ (j.sp_i : ℚ) / 10 := by positivity
  have h1 : (j.sp_i : ℚ) / 10 ≤ 1 := by
    have h4 : (j.sp_i : ℚ) ≤ 4 := by exact_mod_cast h
    linarith
  have hval : fractionValidation (.rat ((j.sp_i : ℚ) / 10)) =
      .ok (.rat ((j.sp_i : ℚ) / 10)) := by
    simp [fractionValidation, h0, h1]
  have hr : roundTo1 ((1/10 : ℚ) * j.sp_i) = (j.sp_i : ℚ) / 10 :=
    roundTo1_tenths j.sp_i
  rw [c10Result, stdPopulatedFn_eq, stdPopulated_eq, hr]
  show bindGet (stdStateFn.update stdState true false (some j))
    "processor_fraction" = _
  simp +decide [Directives.update, aggregateSpecs, mergeOne, resolveWith,
    stdStateFn, stdState, availableDirectivesList, values0, values0Fn,
    NP, NRANKS, NGPU, OMP_NUM_THREADS, EXECUTABLE, WALLTIME, MEMORY,
    PROCESS_FRACTION, procFracFn, hval, lookupVal, setVal, setAll,
    dirMax, dirSum, no_aggregation, Directives.finalizePass, finalizeSpecs,
    Directives.asList, specView, noFinalize, finalize_np, bindGet,
    Directives.get, Directives.findSpec, findSpecIn]

/-- Witness for C10 at the job with state point 2. -/
theorem resolved_fraction_is_rounded_witness :
    bindGet (c10Result ⟨2⟩) "processor_fraction" =
      .ok (.rat (roundTo1 ((1/10 : ℚ) * (⟨2⟩ : Job).sp_i))) :=
  resolved_fraction_is_rounded ⟨2⟩ (by decide)
